import Mathlib

/-!
Shallow embedding of the two HTTP client helpers of the zeno repository:

* the iOS `TokenService` actor (Swift): `fetchConnectionDetails`,
  `fetchConnectionDetailsFromBackend`, the `apiBaseUrl` resolution and the
  `BackendResponse` / `ConnectionDetails` data types;
* the web test client `TestBackend.tsx` (TypeScript): `testApi` and the
  fixed `endpoints` list.

External effects (Clerk token acquisition, URLSession / fetch, JSON parsing
of the raw response bytes) are modelled as an explicit environment; each
client function returns the list of HTTP requests it sent together with its
result, so that request-shape, error-propagation and at-most-one-request
properties are stated over the same definitions.
-/

/-- A JSON value, used for request and response bodies. -/
inductive Json where
  | str (s : String)
  | num (n : Int)
  | bool (b : Bool)
  | null
  | arr (elems : List Json)
  | obj (fields : List (String × Json))

/-- View a JSON value as an object (the field list), when it is one. -/
def Json.asObj : Json → Option (List (String × Json))
  | .obj kvs => some kvs
  | _ => none

/-- View a JSON value as a string, when it is one. -/
def Json.asStr : Json → Option String
  | .str s => some s
  | _ => none

/-- The keys of a JSON object, in order; empty for non-objects. -/
def Json.keys : Json → List String
  | .obj kvs => kvs.map Prod.fst
  | _ => []

/-- An HTTP request as both clients assemble one: method, URL, header list
and an optional JSON body. -/
structure HttpRequest where
  method : String
  url : String
  headers : List (String × String)
  body : Option Json

/-! ## iOS client: TokenService -/

/-- `TokenService.ConnectionDetails` (Swift). -/
structure ConnectionDetails where
  serverUrl : String
  roomName : String
  participantName : String
  participantToken : String

/-- `TokenService.BackendResponse` (Swift): the decoded backend JSON. All
six fields are non-optional, so decoding requires every one of them. -/
structure BackendResponse where
  session_id : String
  room_name : String
  livekit_token : String
  livekit_url : String
  agent_type : String
  user_id : String

/-- `TokenService.TokenServiceError` (Swift). -/
inductive TokenServiceError where
  | authenticationFailed
  | backendError (msg : String)
  | invalidResponse

/-- `TokenServiceError.errorDescription` (Swift). -/
def TokenServiceError.errorDescription : TokenServiceError → String
  | .authenticationFailed => "Failed to authenticate with Clerk"
  | .backendError msg => "Backend error: " ++ msg
  | .invalidResponse => "Invalid response from backend"

/-- Any error `fetchConnectionDetails` can throw. Swift `throws` is untyped:
besides `TokenServiceError`, the `URLSession` transport error propagates
unchanged, and `JSONDecoder.decode` throws a `DecodingError`. -/
inductive ThrownError where
  | tokenService (e : TokenServiceError)
  | transport (msg : String)
  | decoding

/-- Whether a thrown error is a `TokenServiceError` (as opposed to a
propagated transport or decoding error of the Foundation library). -/
def ThrownError.isTokenServiceError : ThrownError → Bool
  | .tokenService _ => true
  | _ => false

/-- The `URLResponse` handed back by `URLSession`: either an
`HTTPURLResponse` with a status code, or some other response (the failing
`as? HTTPURLResponse` cast). -/
inductive UrlResponse where
  | http (statusCode : Int)
  | nonHttp

/-- The response bytes, observed two ways as the Swift code does:
`String(data:encoding:.utf8)` (may fail) and JSON parsing by
`JSONDecoder` (may fail). -/
structure BodyData where
  rawUtf8 : Option String
  json : Option Json

/-- Outcome of `URLSession.shared.data(for:)`: the call either throws a
transport error or returns data plus a response. -/
inductive HttpOutcome where
  | transportError (msg : String)
  | success (response : UrlResponse) (body : BodyData)

/-- The environment of the iOS client: the Info.plist entry for the base
URL, the Clerk session token (none when `getClerkSessionToken` returns
nil), and the network as a function of the request sent. -/
structure IosEnv where
  infoPlistApiBaseUrl : Option String
  clerkToken : Option String
  http : HttpRequest → HttpOutcome

/-- Swift `trimmingCharacters(in: CharacterSet(charactersIn: "\""))`:
remove double-quote characters from both ends. -/
def trimQuoteChars (s : String) : String :=
  String.mk (((s.data.dropWhile (· = '"')).reverse.dropWhile (· = '"')).reverse)

/-- The `apiBaseUrl` stored property of `TokenService`: the Info.plist
value with surrounding quotes trimmed, else the hard-coded fallback. -/
def resolveApiBaseUrl (infoPlistApiBaseUrl : Option String) : String :=
  match infoPlistApiBaseUrl with
  | some url => trimQuoteChars url
  | none => "https://d95f3ba12854.ngrok-free.app/"

/-- Swift `apiBaseUrl.hasSuffix "/"`: the last character is a slash. -/
def hasSuffixSlash (s : String) : Bool := s.data.getLast? = some '/'

/-- Swift `String(apiBaseUrl.dropLast())`: drop the final character. -/
def dropLastChar (s : String) : String := String.mk s.data.dropLast

/-- The `cleanBaseUrl` local of `fetchConnectionDetailsFromBackend`:
one trailing slash is removed when present. -/
def cleanBaseUrl (apiBaseUrl : String) : String :=
  if hasSuffixSlash apiBaseUrl then dropLastChar apiBaseUrl else apiBaseUrl

/-- Whether a string ends in two slashes (its last two characters are
both slashes). -/
def endsWithDoubleSlash (s : String) : Bool :=
  hasSuffixSlash s && hasSuffixSlash (dropLastChar s)

/-- The constant request body of the iOS session request. -/
def sessionRequestBody : Json :=
  .obj [("agent_type", .str "main_zeno"),
        ("session_type", .str "ios"),
        ("initial_context", .obj [])]

/-- The request `fetchConnectionDetailsFromBackend` assembles. -/
def mkSessionRequest (cleanBase clerkToken : String) : HttpRequest :=
  { method := "POST"
  , url := cleanBase ++ "/agent/session/create"
  , headers := [("Content-Type", "application/json"),
                ("Authorization", "Bearer " ++ clerkToken)]
  , body := some sessionRequestBody }

/-- `JSONDecoder().decode(BackendResponse.self, from: data)` on an already
parsed JSON value: succeeds only when the value is an object carrying all
six fields as strings (extra fields are ignored, as the decoder does). -/
def decodeBackendResponse (j : Json) : Option BackendResponse := do
  let kvs ← j.asObj
  let sid ← (kvs.lookup "session_id").bind Json.asStr
  let rn ← (kvs.lookup "room_name").bind Json.asStr
  let lt ← (kvs.lookup "livekit_token").bind Json.asStr
  let lu ← (kvs.lookup "livekit_url").bind Json.asStr
  let at_ ← (kvs.lookup "agent_type").bind Json.asStr
  let uid ← (kvs.lookup "user_id").bind Json.asStr
  pure ⟨sid, rn, lt, lu, at_, uid⟩

/-- The request of one invocation of `fetchConnectionDetailsFromBackend`,
assembled from the resolved and cleaned base URL. -/
def iosRequest (env : IosEnv) (clerkToken : String) : HttpRequest :=
  mkSessionRequest (cleanBaseUrl (resolveApiBaseUrl env.infoPlistApiBaseUrl)) clerkToken

/-- The response-handling tail of `fetchConnectionDetailsFromBackend`: the
guard chain after `URLSession.shared.data(for:)` returns — the
`HTTPURLResponse` cast, the 2xx status range check, the `JSONDecoder`
decode and the `ConnectionDetails` assembly. -/
def processBackendOutcome : HttpOutcome → Except ThrownError ConnectionDetails
  | .transportError msg => .error (.transport msg)
  | .success resp body =>
    match resp with
    | .nonHttp => .error (.tokenService (.backendError "Invalid response"))
    | .http status =>
      if 200 ≤ status ∧ status ≤ 299 then
        match body.json.bind decodeBackendResponse with
        | some br =>
          .ok { serverUrl := br.livekit_url
              , roomName := br.room_name
              , participantName := "user"
              , participantToken := br.livekit_token }
        | none => .error .decoding
      else
        .error (.tokenService (.backendError
          ("HTTP " ++ toString status ++ ": " ++ (body.rawUtf8.getD "Unknown error"))))

/-- `TokenService.fetchConnectionDetailsFromBackend(clerkToken:)`: builds
the POST request, sends it exactly once, then checks the response and
decodes the body. Returns the requests sent alongside the
thrown-or-returned result. -/
def fetchConnectionDetailsFromBackend (env : IosEnv) (clerkToken : String) :
    List HttpRequest × Except ThrownError ConnectionDetails :=
  ([iosRequest env clerkToken], processBackendOutcome (env.http (iosRequest env clerkToken)))

/-- `TokenService.fetchConnectionDetails(roomName:participantName:)`:
obtain the Clerk token, then call the backend. The two parameters are
never read. -/
def fetchConnectionDetails (env : IosEnv)
    (roomName participantName : String) :
    List HttpRequest × Except ThrownError ConnectionDetails :=
  match env.clerkToken with
  | none => ([], .error (.tokenService .authenticationFailed))
  | some t => fetchConnectionDetailsFromBackend env t

/-! ## Web client: TestBackend.tsx -/

/-- The `ApiResponse` interface of `TestBackend.tsx`. -/
structure ApiResponse where
  success : Bool
  data : Option Json
  error : Option String

/-- The component state `testApi` leaves behind: the `loading` flag and
the `response` state variable. -/
structure WebState where
  loading : Bool
  response : Option ApiResponse

/-- Outcome of the browser `fetch` call: the promise rejects with an error
message, or resolves with a status, the body text, the body parsed as JSON
when it parses, and the parse-error message when it does not. -/
inductive FetchResult where
  | reject (msg : String)
  | resolve (status : Int) (text : String) (json : Option Json) (jsonErrorMsg : String)

/-- The environment of the web client: the Vite configuration variable,
the Clerk `getToken` result, and the network as a function of the request. -/
structure WebEnv where
  viteApiBaseUrl : Option String
  getToken : Option String
  fetch : HttpRequest → FetchResult

/-- `import.meta.env.VITE_API_BASE_URL || localhost`: the JavaScript `||`
falls through on the empty string as well as on an unset variable. -/
def webApiBaseUrl (env : WebEnv) : String :=
  match env.viteApiBaseUrl with
  | some s => if s = "" then "http://localhost:8000" else s
  | none => "http://localhost:8000"

/-- `error.message || 'Unknown error occurred'` of the catch block. -/
def orUnknownError (msg : String) : String :=
  if msg = "" then "Unknown error occurred" else msg

/-- The GET request `testApi` assembles for an endpoint. -/
def mkWebRequest (baseUrl token endpoint : String) : HttpRequest :=
  { method := "GET"
  , url := baseUrl ++ endpoint
  , headers := [("Authorization", "Bearer " ++ token),
                ("Content-Type", "application/json")]
  , body := none }

/-- The response handling of `testApi` after `fetch` settles: the
`response.ok` check (status in the 200 to 299 range), `response.json()`,
and the catch block building the error `ApiResponse`. -/
def processFetchResult : FetchResult → ApiResponse
  | .reject msg => ⟨false, none, some (orUnknownError msg)⟩
  | .resolve status text json jsonErrorMsg =>
    if 200 ≤ status ∧ status ≤ 299 then
      match json with
      | some d => ⟨true, some d, none⟩
      | none => ⟨false, none, some (orUnknownError jsonErrorMsg)⟩
    else
      ⟨false, none, some (orUnknownError ("HTTP " ++ toString status ++ ": " ++ text))⟩

/-- `testApi` of `TestBackend.tsx`: get the token, fetch once, and set the
final component state in the catch and finally blocks. Returns the
requests sent alongside the final state. -/
def testApi (env : WebEnv) (endpoint : String) : List HttpRequest × WebState :=
  match env.getToken with
  | none =>
    ([], ⟨false, some ⟨false, none, some (orUnknownError "No auth token available")⟩⟩)
  | some token =>
    let req := mkWebRequest (webApiBaseUrl env) token endpoint
    ([req], ⟨false, some (processFetchResult (env.fetch req))⟩)

/-- One entry of the `endpoints` array of `TestBackend.tsx`. -/
structure EndpointOption where
  path : String
  label : String

/-- The `endpoints` array of `TestBackend.tsx`. -/
def endpoints : List EndpointOption :=
  [ ⟨"/user/test-auth", "Test Auth"⟩
  , ⟨"/user/me", "Get Profile"⟩
  , ⟨"/user/tasks", "Get Tasks"⟩
  , ⟨"/user/briefings", "Get Briefings"⟩
  , ⟨"/user/sessions", "Get Sessions"⟩ ]

/-- The initial value of the `endpoint` state variable. -/
def initialEndpoint : String := "/user/test-auth"

/-! ## Concrete environments used as inputs of witnesses and counterexamples -/

/-- The error of a result, when the result is one. -/
def resultError : Except ThrownError ConnectionDetails → Option ThrownError
  | .error e => some e
  | .ok _ => none

/-- A backend JSON response carrying all six expected fields. -/
def goodBackendJson : Json :=
  .obj [("session_id", .str "sess-1"), ("room_name", .str "room-1"),
        ("livekit_token", .str "lk-token"), ("livekit_url", .str "wss://lk.example"),
        ("agent_type", .str "main_zeno"), ("user_id", .str "user-1")]

/-- An iOS environment whose backend replies 200 with a complete body. -/
def iosEnvOk : IosEnv :=
  ⟨some "https://api.example/", some "clerk-tok",
   fun _ => .success (.http 200) ⟨some "ok", some goodBackendJson⟩⟩

/-- An iOS environment whose network call fails with a transport error. -/
def iosEnvTransportFailure : IosEnv :=
  ⟨some "https://api.example", some "clerk-tok",
   fun _ => .transportError "The network connection was lost."⟩

/-- An iOS environment whose Info.plist base URL ends in two slashes. -/
def iosEnvDoubleSlashBase : IosEnv :=
  ⟨some "https://x//", some "tok", fun _ => .transportError ""⟩

/-- A web environment replying 200 with a body that is not JSON. -/
def webEnvHtmlBody : WebEnv :=
  ⟨none, some "tok",
   fun _ => .resolve 200 "<html>Hello</html>" none
     "Unexpected token < in JSON at position 0"⟩

/-- A web environment replying 200 with a JSON object body. -/
def webEnvOkJson : WebEnv :=
  ⟨none, some "tok", fun _ => .resolve 200 "ok" (some (.obj [])) ""⟩

/-! ## Helper lemmas -/

/-- A JSON value viewed successfully as a string is that string. -/
theorem Json.asStr_eq_some {j : Json} {s : String} (h : j.asStr = some s) :
    j = .str s := by
  cases j <;> simp_all [Json.asStr]

/-- Decoding a `BackendResponse` succeeds only on an object carrying all
six fields as strings, and the decoded record holds exactly those
strings. -/
theorem decodeBackendResponse_fields {j : Json} {br : BackendResponse}
    (h : decodeBackendResponse j = some br) :
    ∃ kvs, j.asObj = some kvs ∧
      kvs.lookup "session_id" = some (.str br.session_id) ∧
      kvs.lookup "room_name" = some (.str br.room_name) ∧
      kvs.lookup "livekit_token" = some (.str br.livekit_token) ∧
      kvs.lookup "livekit_url" = some (.str br.livekit_url) ∧
      kvs.lookup "agent_type" = some (.str br.agent_type) ∧
      kvs.lookup "user_id" = some (.str br.user_id) := by
  simp only [decodeBackendResponse, bind, Option.bind_eq_some, Option.pure_def,
    Option.some.injEq] at h
  obtain ⟨kvs, hk, sid, ⟨v1, hl1, hv1⟩, rn, ⟨v2, hl2, hv2⟩, lt, ⟨v3, hl3, hv3⟩,
    lu, ⟨v4, hl4, hv4⟩, at_, ⟨v5, hl5, hv5⟩, uid, ⟨v6, hl6, hv6⟩, heq⟩ := h
  subst heq
  exact ⟨kvs, hk, by rw [hl1, Json.asStr_eq_some hv1], by rw [hl2, Json.asStr_eq_some hv2],
    by rw [hl3, Json.asStr_eq_some hv3], by rw [hl4, Json.asStr_eq_some hv4],
    by rw [hl5, Json.asStr_eq_some hv5], by rw [hl6, Json.asStr_eq_some hv6]⟩

/-- Inversion of a successful backend fetch: the response was an HTTP 2xx
one, its body decoded, and the details were assembled from the decoded
record. -/
theorem fetchFromBackend_ok {env : IosEnv} {token : String} {cd : ConnectionDetails}
    (h : (fetchConnectionDetailsFromBackend env token).snd = .ok cd) :
    ∃ status body br,
      env.http (iosRequest env token) = .success (.http status) body ∧
      (200 ≤ status ∧ status ≤ 299) ∧
      body.json.bind decodeBackendResponse = some br ∧
      cd = ⟨br.livekit_url, br.room_name, "user", br.livekit_token⟩ := by
  simp only [fetchConnectionDetailsFromBackend] at h
  cases hh : env.http (iosRequest env token) with
  | transportError msg => rw [hh] at h; simp [processBackendOutcome] at h
  | success resp body =>
    rw [hh] at h
    cases resp with
    | nonHttp => simp [processBackendOutcome] at h
    | http status =>
      by_cases hs : 200 ≤ status ∧ status ≤ 299
      · cases hb : body.json.bind decodeBackendResponse with
        | none => simp [processBackendOutcome, hs, hb] at h
        | some br =>
          simp only [processBackendOutcome, if_pos hs, hb, Except.ok.injEq] at h
          exact ⟨status, body, br, rfl, hs, hb, h ▸ rfl⟩
      · simp [processBackendOutcome, hs] at h

/-- The catch block never surfaces an empty error message. -/
theorem orUnknownError_ne_empty (msg : String) : orUnknownError msg ≠ "" := by
  unfold orUnknownError
  split
  · decide
  · assumption

/-! ## Claim theorems -/

/-- Claim C1: every invocation of fetchConnectionDetailsFromBackend sends
exactly one request, a POST to the cleaned base URL followed by
/agent/session/create, carrying the Bearer authorization header and a JSON
body whose keys are exactly agent_type, session_type and initial_context;
and a descriptor is returned only when the response is an HTTP 2xx one
whose JSON body carries all of session_id, room_name, livekit_token,
livekit_url, agent_type and user_id. -/
theorem sessionRequest_contract (env : IosEnv) (clerkToken : String) :
    (fetchConnectionDetailsFromBackend env clerkToken).fst = [iosRequest env clerkToken] ∧
    (iosRequest env clerkToken).method = "POST" ∧
    (iosRequest env clerkToken).url =
      cleanBaseUrl (resolveApiBaseUrl env.infoPlistApiBaseUrl) ++ "/agent/session/create" ∧
    ("Authorization", "Bearer " ++ clerkToken) ∈ (iosRequest env clerkToken).headers ∧
    ((iosRequest env clerkToken).body.map Json.keys)
      = some ["agent_type", "session_type", "initial_context"] ∧
    ∀ cd, (fetchConnectionDetailsFromBackend env clerkToken).snd = .ok cd →
      ∃ status body j br kvs,
        env.http (iosRequest env clerkToken) = .success (.http status) body ∧
        200 ≤ status ∧ status ≤ 299 ∧
        body.json = some j ∧ decodeBackendResponse j = some br ∧
        j.asObj = some kvs ∧
        kvs.lookup "session_id" = some (.str br.session_id) ∧
        kvs.lookup "room_name" = some (.str br.room_name) ∧
        kvs.lookup "livekit_token" = some (.str br.livekit_token) ∧
        kvs.lookup "livekit_url" = some (.str br.livekit_url) ∧
        kvs.lookup "agent_type" = some (.str br.agent_type) ∧
        kvs.lookup "user_id" = some (.str br.user_id) := by
  refine ⟨rfl, rfl, rfl, by simp [iosRequest, mkSessionRequest], rfl, ?_⟩
  intro cd h
  obtain ⟨status, body, br, hh, hs, hb, hcd⟩ := fetchFromBackend_ok h
  obtain ⟨j, hj, hdec⟩ := Option.bind_eq_some.mp hb
  obtain ⟨kvs, hk, h1, h2, h3, h4, h5, h6⟩ := decodeBackendResponse_fields hdec
  exact ⟨status, body, j, br, kvs, hh, hs.1, hs.2, hj, hdec, hk, h1, h2, h3, h4, h5, h6⟩

/-- Claim C2, counterexample: on a transport failure the iOS client does
throw exactly one error after exactly one request, but that error is the
propagated transport error, not a TokenServiceError as the claim states. -/
theorem transportFailure_not_tokenServiceError :
    (fetchConnectionDetails iosEnvTransportFailure "room" "alice").snd
      = .error (.transport "The network connection was lost.") ∧
    (resultError (fetchConnectionDetails iosEnvTransportFailure "room" "alice").snd).map
      ThrownError.isTokenServiceError = some false ∧
    (fetchConnectionDetails iosEnvTransportFailure "room" "alice").fst.length = 1 :=
  ⟨rfl, rfl, rfl⟩

/-- Claim C2, amended: each client sends exactly one request per
invocation with no retry, and surfaces exactly one error: the web client
sets response to a single failed ApiResponse; the iOS client throws a
TokenServiceError for a non-2xx HTTP response, while a transport failure
propagates the underlying transport error unchanged. -/
theorem singleError_noRetry (ienv : IosEnv) (r p : String)
    (wenv : WebEnv) (ep : String) :
    (∀ t, ienv.clerkToken = some t →
       (fetchConnectionDetails ienv r p).fst.length = 1) ∧
    (∀ t msg, ienv.clerkToken = some t →
       ienv.http (iosRequest ienv t) = .transportError msg →
       (fetchConnectionDetails ienv r p).snd = .error (.transport msg)) ∧
    (∀ t status body, ienv.clerkToken = some t →
       ienv.http (iosRequest ienv t) = .success (.http status) body →
       ¬(200 ≤ status ∧ status ≤ 299) →
       (fetchConnectionDetails ienv r p).snd
         = .error (.tokenService (.backendError
             ("HTTP " ++ toString status ++ ": "
               ++ (body.rawUtf8.getD "Unknown error"))))) ∧
    (∀ t, wenv.getToken = some t → (testApi wenv ep).fst.length = 1) ∧
    (∀ t msg, wenv.getToken = some t →
       wenv.fetch (mkWebRequest (webApiBaseUrl wenv) t ep) = .reject msg →
       (testApi wenv ep).snd.response
         = some ⟨false, none, some (orUnknownError msg)⟩) ∧
    (∀ t status text json jmsg, wenv.getToken = some t →
       wenv.fetch (mkWebRequest (webApiBaseUrl wenv) t ep)
         = .resolve status text json jmsg →
       ¬(200 ≤ status ∧ status ≤ 299) →
       (testApi wenv ep).snd.response
         = some ⟨false, none,
             some (orUnknownError ("HTTP " ++ toString status ++ ": " ++ text))⟩) := by
  refine ⟨?_, ?_, ?_, ?_, ?_, ?_⟩
  · intro t hg
    simp [fetchConnectionDetails, hg, fetchConnectionDetailsFromBackend]
  · intro t msg hg hh
    simp [fetchConnectionDetails, hg, fetchConnectionDetailsFromBackend, hh,
      processBackendOutcome]
  · intro t status body hg hh hs
    simp [fetchConnectionDetails, hg, fetchConnectionDetailsFromBackend, hh,
      processBackendOutcome, hs]
  · intro t hg
    simp [testApi, hg]
  · intro t msg hg hf
    simp [testApi, hg, hf, processFetchResult]
  · intro t status text json jmsg hg hf hs
    simp [testApi, hg, hf, processFetchResult, hs]

/-- Claim C3: fetchConnectionDetails first obtains the identity token —
when that fails no request is sent and authenticationFailed is thrown —
then delegates to the backend POST, whose single request is sent anew on
every call, and a transport failure of that POST aborts the sequence with
the transport error propagated upward. -/
theorem fetchConnectionDetails_sequential (env : IosEnv) (r p : String) :
    (env.clerkToken = none →
       fetchConnectionDetails env r p
         = ([], .error (.tokenService .authenticationFailed))) ∧
    (∀ t, env.clerkToken = some t →
       fetchConnectionDetails env r p = fetchConnectionDetailsFromBackend env t ∧
       (fetchConnectionDetails env r p).fst = [iosRequest env t] ∧
       (∀ msg, env.http (iosRequest env t) = .transportError msg →
          (fetchConnectionDetails env r p).snd = .error (.transport msg))) := by
  constructor
  · intro hg
    simp [fetchConnectionDetails, hg]
  · intro t hg
    refine ⟨by simp [fetchConnectionDetails, hg],
      by simp [fetchConnectionDetails, hg, fetchConnectionDetailsFromBackend], ?_⟩
    intro msg hmsg
    simp [fetchConnectionDetails, hg, fetchConnectionDetailsFromBackend, hmsg,
      processBackendOutcome]

/-- Claim C4: every request testApi sends is a GET to the base URL
concatenated with the endpoint, carrying the Bearer authorization header,
and the endpoint list offered by the UI is exactly the five fixed paths,
the initial selection being among them. -/
theorem testApi_request_contract :
    (∀ (env : WebEnv) (ep : String), ∀ req ∈ (testApi env ep).fst,
       req.method = "GET" ∧ req.url = webApiBaseUrl env ++ ep ∧
       ∃ t, env.getToken = some t ∧
         ("Authorization", "Bearer " ++ t) ∈ req.headers) ∧
    endpoints.map EndpointOption.path
      = ["/user/test-auth", "/user/me", "/user/tasks", "/user/briefings",
         "/user/sessions"] ∧
    initialEndpoint ∈ endpoints.map EndpointOption.path := by
  refine ⟨?_, rfl, by simp [endpoints, initialEndpoint]⟩
  intro env ep req hmem
  cases hg : env.getToken with
  | none => simp [testApi, hg] at hmem
  | some t =>
    simp [testApi, hg] at hmem
    subst hmem
    exact ⟨rfl, rfl, t, rfl, by simp [mkWebRequest]⟩

/-- Claim C5, counterexample: a 200 response whose body is not valid JSON
leaves the web client in the error state, not the success state the claim
requires of every 2xx response. -/
theorem ok_unparseableBody_yields_error :
    webEnvHtmlBody.fetch
        (mkWebRequest (webApiBaseUrl webEnvHtmlBody) "tok" initialEndpoint)
      = .resolve 200 "<html>Hello</html>" none
          "Unexpected token < in JSON at position 0" ∧
    (testApi webEnvHtmlBody initialEndpoint).snd.response
      = some ⟨false, none, some "Unexpected token < in JSON at position 0"⟩ ∧
    ((testApi webEnvHtmlBody initialEndpoint).snd.response.map ApiResponse.success)
      = some false :=
  ⟨rfl, rfl, rfl⟩

/-- Claim C5, amended: a non-2xx status ends in the error state with the
HTTP error message; a 2xx status whose body parses as JSON surfaces the
parsed payload as a success; a 2xx status whose body fails to parse ends
in the error state with the parse error message. -/
theorem testApi_status_dispatch (env : WebEnv) (ep t : String)
    (status : Int) (text : String) (json : Option Json) (jmsg : String)
    (hg : env.getToken = some t)
    (hf : env.fetch (mkWebRequest (webApiBaseUrl env) t ep)
            = .resolve status text json jmsg) :
    (¬(200 ≤ status ∧ status ≤ 299) →
       (testApi env ep).snd.response
         = some ⟨false, none,
             some (orUnknownError ("HTTP " ++ toString status ++ ": " ++ text))⟩) ∧
    (200 ≤ status ∧ status ≤ 299 → ∀ d, json = some d →
       (testApi env ep).snd.response = some ⟨true, some d, none⟩) ∧
    (200 ≤ status ∧ status ≤ 299 → json = none →
       (testApi env ep).snd.response
         = some ⟨false, none, some (orUnknownError jmsg)⟩) := by
  refine ⟨?_, ?_, ?_⟩
  · intro hs
    simp [testApi, hg, hf, processFetchResult, hs]
  · intro hs d hd
    subst hd
    simp [testApi, hg, hf, processFetchResult, hs]
  · intro hs hd
    subst hd
    simp [testApi, hg, hf, processFetchResult, hs]

/-- Witness of the amended claim C5 at a concrete 200 JSON response. -/
theorem testApi_status_dispatch_witness :
    (¬((200 : Int) ≤ 200 ∧ (200 : Int) ≤ 299) →
       (testApi webEnvOkJson initialEndpoint).snd.response
         = some ⟨false, none,
             some (orUnknownError ("HTTP " ++ toString (200 : Int) ++ ": " ++ "ok"))⟩) ∧
    ((200 : Int) ≤ 200 ∧ (200 : Int) ≤ 299 →
       ∀ d, (some (Json.obj []) : Option Json) = some d →
       (testApi webEnvOkJson initialEndpoint).snd.response
         = some ⟨true, some d, none⟩) ∧
    ((200 : Int) ≤ 200 ∧ (200 : Int) ≤ 299 →
       (some (Json.obj []) : Option Json) = none →
       (testApi webEnvOkJson initialEndpoint).snd.response
         = some ⟨false, none, some (orUnknownError "")⟩) :=
  testApi_status_dispatch webEnvOkJson initialEndpoint "tok" 200 "ok"
    (some (.obj [])) "" rfl rfl

/-- Claim C6: a successful fetchConnectionDetailsFromBackend returns the
descriptor assembled from the decoded backend response: serverUrl is
livekit_url, roomName is room_name, participantToken is livekit_token. -/
theorem connectionDetails_assembly (env : IosEnv) (clerkToken : String)
    (cd : ConnectionDetails)
    (h : (fetchConnectionDetailsFromBackend env clerkToken).snd = .ok cd) :
    ∃ status body br,
      env.http (iosRequest env clerkToken) = .success (.http status) body ∧
      body.json.bind decodeBackendResponse = some br ∧
      cd.serverUrl = br.livekit_url ∧
      cd.roomName = br.room_name ∧
      cd.participantToken = br.livekit_token ∧
      cd.participantName = "user" := by
  obtain ⟨status, body, br, hh, hs, hb, hcd⟩ := fetchFromBackend_ok h
  subst hcd
  exact ⟨status, body, br, hh, hb, rfl, rfl, rfl, rfl⟩

/-- Witness of claim C6 at a concrete complete backend response. -/
theorem connectionDetails_assembly_witness :
    ∃ status body br,
      iosEnvOk.http (iosRequest iosEnvOk "clerk-tok") = .success (.http status) body ∧
      body.json.bind decodeBackendResponse = some br ∧
      (ConnectionDetails.mk "wss://lk.example" "room-1" "user" "lk-token").serverUrl
        = br.livekit_url ∧
      (ConnectionDetails.mk "wss://lk.example" "room-1" "user" "lk-token").roomName
        = br.room_name ∧
      (ConnectionDetails.mk "wss://lk.example" "room-1" "user" "lk-token").participantToken
        = br.livekit_token ∧
      (ConnectionDetails.mk "wss://lk.example" "room-1" "user" "lk-token").participantName
        = "user" :=
  connectionDetails_assembly iosEnvOk "clerk-tok"
    ⟨"wss://lk.example", "room-1", "user", "lk-token"⟩ rfl

/-- Claim C7: a single invocation of either client performs at most one
request — a GET for the web client, a POST for the iOS client — and never
repeats it. -/
theorem atMostOneRequest (wenv : WebEnv) (ep : String)
    (ienv : IosEnv) (r p : String) :
    (testApi wenv ep).fst.length ≤ 1 ∧
    (fetchConnectionDetails ienv r p).fst.length ≤ 1 ∧
    (∀ req ∈ (testApi wenv ep).fst, req.method = "GET") ∧
    (∀ req ∈ (fetchConnectionDetails ienv r p).fst, req.method = "POST") := by
  refine ⟨?_, ?_, ?_, ?_⟩
  · cases hg : wenv.getToken <;> simp [testApi, hg]
  · cases hg : ienv.clerkToken <;>
      simp [fetchConnectionDetails, hg, fetchConnectionDetailsFromBackend]
  · intro req hmem
    cases hg : wenv.getToken with
    | none => simp [testApi, hg] at hmem
    | some t =>
      simp [testApi, hg] at hmem
      subst hmem
      rfl
  · intro req hmem
    cases hg : ienv.clerkToken with
    | none => simp [fetchConnectionDetails, hg] at hmem
    | some t =>
      simp [fetchConnectionDetails, hg, fetchConnectionDetailsFromBackend] at hmem
      subst hmem
      rfl

/-- Claim C8: the result of fetchConnectionDetails is independent of its
roomName and participantName arguments, the request body is the fixed
object with agent_type main_zeno, session_type ios and an empty
initial_context, and a returned descriptor always carries the constant
participantName user. -/
theorem fetchConnectionDetails_ignores_arguments (env : IosEnv)
    (r1 p1 r2 p2 : String) :
    fetchConnectionDetails env r1 p1 = fetchConnectionDetails env r2 p2 ∧
    sessionRequestBody = Json.obj [("agent_type", Json.str "main_zeno"),
      ("session_type", Json.str "ios"), ("initial_context", Json.obj [])] ∧
    (∀ req ∈ (fetchConnectionDetails env r1 p1).fst,
       req.body = some sessionRequestBody) ∧
    (∀ cd, (fetchConnectionDetails env r1 p1).snd = .ok cd →
       cd.participantName = "user") := by
  refine ⟨rfl, rfl, ?_, ?_⟩
  · intro req hmem
    cases hg : env.clerkToken with
    | none => simp [fetchConnectionDetails, hg] at hmem
    | some t =>
      simp [fetchConnectionDetails, hg, fetchConnectionDetailsFromBackend] at hmem
      subst hmem
      rfl
  · intro cd h
    cases hg : env.clerkToken with
    | none => simp [fetchConnectionDetails, hg] at h
    | some t =>
      rw [fetchConnectionDetails, hg] at h
      obtain ⟨_, _, _, _, _, _, hcd⟩ := fetchFromBackend_ok h
      subst hcd
      rfl

/-- Claim C9: testApi always terminates with loading false and a set
response; success is true exactly when a token was obtained, the fetch
resolved with a 2xx status and the body parsed as JSON; otherwise success
is false with a non-empty error message, falling back to the fixed
unknown-error text when the caught error carries no message. -/
theorem testApi_total_outcome (env : WebEnv) (ep : String) :
    (testApi env ep).snd.loading = false ∧
    ∃ r, (testApi env ep).snd.response = some r ∧
      (r.success = true ↔
        ∃ t status text d jmsg,
          env.getToken = some t ∧
          env.fetch (mkWebRequest (webApiBaseUrl env) t ep)
            = .resolve status text (some d) jmsg ∧
          200 ≤ status ∧ status ≤ 299) ∧
      (r.success = true → r.error = none ∧ ∃ d, r.data = some d) ∧
      (r.success = false → r.data = none ∧ ∃ m, r.error = some m ∧ m ≠ "") ∧
      (∀ t, env.getToken = some t →
        env.fetch (mkWebRequest (webApiBaseUrl env) t ep) = .reject "" →
        r.error = some "Unknown error occurred") := by
  cases hg : env.getToken with
  | none =>
    refine ⟨by simp [testApi, hg],
      ⟨false, none, some (orUnknownError "No auth token available")⟩,
      by simp [testApi, hg], ?_, ?_, ?_, ?_⟩
    · constructor
      · intro h; simp at h
      · rintro ⟨t, _, _, _, _, ht, _⟩; simp at ht
    · intro h; simp at h
    · intro _; exact ⟨rfl, _, rfl, orUnknownError_ne_empty _⟩
    · intro t ht; simp at ht
  | some t =>
    cases hf : env.fetch (mkWebRequest (webApiBaseUrl env) t ep) with
    | reject msg =>
      refine ⟨by simp [testApi, hg], ⟨false, none, some (orUnknownError msg)⟩,
        by simp [testApi, hg, hf, processFetchResult], ?_, ?_, ?_, ?_⟩
      · constructor
        · intro h; simp at h
        · rintro ⟨t2, s2, x2, d2, m2, ht2, hf2, _⟩
          injection ht2 with ht2
          subst ht2
          rw [hf] at hf2
          simp at hf2
      · intro h; simp at h
      · intro _; exact ⟨rfl, _, rfl, orUnknownError_ne_empty _⟩
      · intro t2 ht2 hf2
        injection ht2 with ht2
        subst ht2
        rw [hf] at hf2
        injection hf2 with hm
        subst hm
        simp [orUnknownError]
    | resolve status text json jmsg =>
      by_cases hs : 200 ≤ status ∧ status ≤ 299
      · cases json with
        | some d =>
          refine ⟨by simp [testApi, hg], ⟨true, some d, none⟩,
            by simp [testApi, hg, hf, processFetchResult, hs], ?_, ?_, ?_, ?_⟩
          · exact ⟨fun _ => ⟨t, status, text, d, jmsg, rfl, hf, hs.1, hs.2⟩,
              fun _ => rfl⟩
          · intro _; exact ⟨rfl, d, rfl⟩
          · intro h; simp at h
          · intro t2 ht2 hf2
            injection ht2 with ht2
            subst ht2
            rw [hf] at hf2
            simp at hf2
        | none =>
          refine ⟨by simp [testApi, hg],
            ⟨false, none, some (orUnknownError jmsg)⟩,
            by simp [testApi, hg, hf, processFetchResult, hs], ?_, ?_, ?_, ?_⟩
          · constructor
            · intro h; simp at h
            · rintro ⟨t2, s2, x2, d2, m2, ht2, hf2, _⟩
              injection ht2 with ht2
              subst ht2
              rw [hf] at hf2
              simp at hf2
          · intro h; simp at h
          · intro _; exact ⟨rfl, _, rfl, orUnknownError_ne_empty _⟩
          · intro t2 ht2 hf2
            injection ht2 with ht2
            subst ht2
            rw [hf] at hf2
            simp at hf2
      · refine ⟨by simp [testApi, hg], ⟨false, none,
          some (orUnknownError ("HTTP " ++ toString status ++ ": " ++ text))⟩,
          by simp [testApi, hg, hf, processFetchResult, hs], ?_, ?_, ?_, ?_⟩
        · constructor
          · intro h; simp at h
          · rintro ⟨t2, s2, x2, d2, m2, ht2, hf2, h1, h2⟩
            injection ht2 with ht2
            subst ht2
            rw [hf] at hf2
            injection hf2 with e1 e2 e3 e4
            subst e1
            exact absurd ⟨h1, h2⟩ hs
        · intro h; simp at h
        · intro _; exact ⟨rfl, _, rfl, orUnknownError_ne_empty _⟩
        · intro t2 ht2 hf2
          injection ht2 with ht2
          subst ht2
          rw [hf] at hf2
          simp at hf2

/-- Claim C10, counterexample: a configured base URL ending in two slashes
keeps one of them, so the request URL differs from the base with all
trailing slashes removed and carries a double slash at the join point. -/
theorem doubleSlashBase_counterexample :
    (iosRequest iosEnvDoubleSlashBase "tok").url
      = "https://x//agent/session/create" ∧
    "https://x//agent/session/create" ≠ "https://x" ++ "/agent/session/create" :=
  ⟨rfl, by decide⟩

/-- Claim C10, amended: exactly one trailing slash of the configured base
URL is removed before appending the path, so for every base URL that does
not end in two slashes the join point carries no double slash. -/
theorem cleanBaseUrl_join (env : IosEnv) (token : String)
    (h : endsWithDoubleSlash (resolveApiBaseUrl env.infoPlistApiBaseUrl) = false) :
    (iosRequest env token).url
      = cleanBaseUrl (resolveApiBaseUrl env.infoPlistApiBaseUrl)
          ++ "/agent/session/create" ∧
    hasSuffixSlash (cleanBaseUrl (resolveApiBaseUrl env.infoPlistApiBaseUrl))
      = false := by
  refine ⟨rfl, ?_⟩
  cases hslash : hasSuffixSlash (resolveApiBaseUrl env.infoPlistApiBaseUrl) with
  | false => simp [cleanBaseUrl, hslash]
  | true =>
    unfold endsWithDoubleSlash at h
    rw [hslash] at h
    simp only [Bool.true_and] at h
    simpa [cleanBaseUrl, hslash] using h

/-- Witness of the amended claim C10 at a base URL with one trailing
slash. -/
theorem cleanBaseUrl_join_witness :
    (iosRequest iosEnvOk "clerk-tok").url
      = cleanBaseUrl (resolveApiBaseUrl iosEnvOk.infoPlistApiBaseUrl)
          ++ "/agent/session/create" ∧
    hasSuffixSlash (cleanBaseUrl (resolveApiBaseUrl iosEnvOk.infoPlistApiBaseUrl))
      = false :=
  cleanBaseUrl_join iosEnvOk "clerk-tok" (by decide)
